import Mathlib

/-!
Shallow embedding of the hybrid-chat realtime message broker
(SessionManager.js, StorageService.js, MessageHandler, WebSocketServer.js).

Modelling conventions:
* WebSocket connection handles are identified by natural numbers (`ConnId`);
  the transport's open/closed state (`readyState === 1`) is an external
  predicate `isOpen : ConnId → Bool`.
* `Date.now()` and `uuidv4()` are passed in explicitly (`now`, `freshId`).
* `ws.send(frame)` is recorded as an `Output.send` event; the store is pure
  state.  A throwing `fs.writeFile` inside `saveMessage` is modelled by the
  store's `writeFails` flag (the returned `Bool` is "the call threw"), and a
  throwing underlying read inside `getMessagesBefore` by `readFails`
  (the source catches it and returns `[]`).
* Parsed JSON client messages are records of optional typed fields; a raw
  inbound payload is either unparseable (`malformed`) or a parsed value.
  JavaScript falsiness of a string field (`undefined` or `""`) is `jsFalsy`;
  `a || b` on string/number fields is `jsOrStr` / `jsOrNat`.
-/

namespace HybridChat

abbrev ConnId := Nat

/-- A chat message as persisted and broadcast
({type, id, senderId, content, timestamp}); `senderId` is absent for
SYSTEM notices. -/
structure Message where
  type : String
  id : String
  senderId : Option String
  content : String
  timestamp : Nat
deriving Repr, DecidableEq

/-- JS falsiness of an optional string field: `!x` is true when the field is
absent or the empty string. -/
def jsFalsy (o : Option String) : Bool :=
  match o with
  | none => true
  | some s => s == ""

/-- Read an optional string field the way JS coerces `undefined` when it is
then handed to string operations guarded by a falsiness check. -/
def jsStr (o : Option String) : String := o.getD ""

/-- JS `field || dflt` on a string field: absent or `""` picks the default. -/
def jsOrStr (o : Option String) (dflt : String) : String :=
  match o with
  | none => dflt
  | some s => if s == "" then dflt else s

/-- JS `field || dflt` on a numeric field: absent or `0` picks the default. -/
def jsOrNat (o : Option Nat) (dflt : Nat) : Nat :=
  match o with
  | none => dflt
  | some n => if n == 0 then dflt else n

/-- JS `String.prototype.trim()`: strip leading and trailing whitespace
(written with structural recursion so that it evaluates by `decide`). -/
def jsTrim (s : String) : String :=
  ⟨((s.data.dropWhile Char.isWhitespace).reverse.dropWhile Char.isWhitespace).reverse⟩

/-! ## StorageService (file-backed store, src/StorageService.js)

The store state is the in-memory `messages` array plus two external-failure
flags: `writeFails` (the `fs.writeFile` call inside `saveMessage` throws) and
`readFails` (the body of `getMessagesBefore` throws before returning, which
the source catches, returning `[]`). -/

structure Store where
  messages : List Message
  readFails : Bool
  writeFails : Bool
deriving Repr, DecidableEq

namespace StorageService

/-- JS `Array.prototype.findIndex`, returned as an option instead of `-1`. -/
def findIndexOpt (p : Message → Bool) : List Message → Option Nat
  | [] => none
  | m :: rest => if p m then some 0 else (findIndexOpt p rest).map (· + 1)

/-- JS `arr.slice(-limit)`.  Note that for `limit = 0` this is `arr.slice(0)`
(`-0 === 0` in JS), i.e. the whole array — not the empty array. -/
def jsSliceNeg (l : List Message) (limit : Nat) : List Message :=
  if limit == 0 then l else l.drop (l.length - limit)

/-- JS `arr.slice(start, stop)` for `start ≤ stop` natural indices. -/
def jsSlice (l : List Message) (start stop : Nat) : List Message :=
  (l.drop start).take (stop - start)

/-- StorageService.getMessagesBefore: locate `messageId` by `findIndex`; if
absent or not found return `messages.slice(-limit)`, otherwise
`messages.slice(Math.max(0, idx - limit), idx)`.  The whole body is wrapped in
a try/catch returning `[]`, modelled by the `readFails` flag. -/
def getMessagesBefore (s : Store) (messageId : Option String) (limit : Nat) :
    List Message :=
  if s.readFails then []
  else
    match messageId with
    | none => jsSliceNeg s.messages limit
    | some mid =>
      match findIndexOpt (fun m => m.id == mid) s.messages with
      | none => jsSliceNeg s.messages limit
      | some idx => jsSlice s.messages (idx - limit) idx

/-- StorageService.saveMessage: the message is pushed onto the in-memory
array first; then the file write may throw, in which case the error is
re-thrown to the caller — but the in-memory push is not rolled back.  The
returned `Bool` is "saveMessage threw". -/
def saveMessage (s : Store) (m : Message) : Store × Bool :=
  ({ s with messages := s.messages ++ [m] }, s.writeFails)

/-- StorageService.getAllMessages: a copy of the in-memory array. -/
def getAllMessages (s : Store) : List Message := s.messages

end StorageService

/-! ## SessionManager (src/SessionManager.js)

`sessions` is a JS `Map` keyed by `userId`; we model it as the insertion-order
association list that a JS `Map` iterates in (`Map.set` on an existing key
replaces the value in place, otherwise appends). -/

structure Session where
  userId : String
  ws : ConnId
  connectedAt : Nat
  lastActivity : Nat
deriving Repr, DecidableEq

namespace SessionManager

/-- SessionManager.createSession: `sessions.set(userId, {...})`. -/
def createSession (l : List Session) (userId : String) (ws : ConnId)
    (now : Nat) : List Session :=
  let s : Session := ⟨userId, ws, now, now⟩
  if l.any (fun t => t.userId == userId) then
    l.map (fun t => if t.userId == userId then s else t)
  else l ++ [s]

/-- SessionManager.removeSession: `sessions.delete(userId)`. -/
def removeSession (l : List Session) (userId : String) : List Session :=
  l.filter (fun t => t.userId != userId)

/-- SessionManager.findUserIdByWs: first entry (in Map iteration order) whose
connection is `ws`. -/
def findUserIdByWs (l : List Session) (ws : ConnId) : Option String :=
  (l.find? (fun t => t.ws == ws)).map Session.userId

/-- SessionManager.getAllSessions: `Array.from(sessions.values())`. -/
def getAllSessions (l : List Session) : List Session := l

/-- SessionManager.updateActivity: refresh `lastActivity` of the entry keyed
by `userId`, if present. -/
def updateActivity (l : List Session) (userId : String) (now : Nat) :
    List Session :=
  l.map (fun t => if t.userId == userId then { t with lastActivity := now } else t)

end SessionManager

/-! ## Wire frames and observable outputs -/

/-- An outbound frame: ERROR, LOGIN_SUCCESS, HISTORY_RESPONSE, or a
broadcast chat/system message object. -/
inductive Frame where
  | error (message : String)
  | loginSuccess (userId : String)
  | historyResponse (messages : List Message) (hasMore : Bool)
  | chat (m : Message)
deriving Repr, DecidableEq

/-- An observable effect: one `ws.send(frame)` call to connection `dest`. -/
inductive Output where
  | send (dest : ConnId) (frame : Frame)
deriving Repr, DecidableEq

/-- WebSocketServer.broadcast: snapshot the sessions, and send the serialized
message to every session whose connection is not `excludeWs` and is open
(`readyState === 1`); per-recipient send failures are caught. -/
def broadcastSends (sessions : List Session) (isOpen : ConnId → Bool)
    (m : Message) (excludeWs : Option ConnId) : List Output :=
  (sessions.filter (fun s => (some s.ws != excludeWs) && isOpen s.ws)).map
    (fun s => Output.send s.ws (Frame.chat m))

/-! ## Inbound payloads -/

/-- A parsed JSON client message: every protocol field, optional.  A field
that is absent (or not of the expected primitive type, which the validator
treats the same way for the required fields) is `none`. -/
structure ClientMsg where
  type : Option String := none
  userId : Option String := none
  content : Option String := none
  id : Option String := none
  timestamp : Option Nat := none
  lastMessageId : Option String := none
  limit : Option Nat := none
deriving Repr, DecidableEq

/-- Result of `JSON.parse` when it succeeds: either not an object (null,
number, string), or an object with optional fields. -/
inductive Parsed where
  | notObject
  | obj (m : ClientMsg)
deriving Repr, DecidableEq

/-- A raw inbound payload: unparseable text, or parsed JSON. -/
inductive RawPayload where
  | malformed
  | parsed (p : Parsed)
deriving Repr, DecidableEq

/-- The broker's shared mutable state: the session registry and the store. -/
structure ServerState where
  sessions : List Session
  store : Store
deriving Repr, DecidableEq

namespace MessageHandler

/-- MessageHandler.validateMessage: structural validation before dispatch. -/
def validateMessage : Parsed → Option String
  | Parsed.notObject => some "Message must be an object"
  | Parsed.obj m =>
    if jsFalsy m.type then some "Message must have a valid type field"
    else
      let t := jsStr m.type
      if t == "LOGIN" then
        if jsFalsy m.userId then some "LOGIN message must have a valid userId field"
        else none
      else if t == "TEXT" || t == "IMAGE" || t == "VIDEO" || t == "AUDIO" then
        if jsFalsy m.content then some (t ++ " message must have a valid content field")
        else none
      else if t == "GET_HISTORY" then none
      else if t == "SYSTEM" then some "SYSTEM messages cannot be sent by clients"
      else none

/-- The SYSTEM "joined" notice built inside handleLogin. -/
def joinedNotice (userId : String) (now : Nat) (freshId : String) : Message :=
  { type := "SYSTEM", id := freshId, senderId := none,
    content := userId ++ " joined the chat", timestamp := now }

/-- MessageHandler.handleLogin: reject an absent/empty/whitespace-only
userId; otherwise register the session, send LOGIN_SUCCESS, load the 50 most
recent messages and send them as HISTORY_RESPONSE when non-empty, persist the
SYSTEM joined notice (best-effort), and broadcast it excluding the sender. -/
def handleLogin (st : ServerState) (isOpen : ConnId → Bool) (ws : ConnId)
    (d : ClientMsg) (now : Nat) (freshId : String) :
    ServerState × List Output :=
  if jsTrim (jsStr d.userId) == "" then
    (st, [Output.send ws (Frame.error "Invalid user ID")])
  else
    let userId := jsStr d.userId
    let sessions1 := SessionManager.createSession st.sessions userId ws now
    let recent := StorageService.getMessagesBefore st.store none 50
    let histOut : List Output :=
      if recent.length > 0 then
        [Output.send ws (Frame.historyResponse recent (recent.length == 50))]
      else []
    let sys := joinedNotice userId now freshId
    let saved := StorageService.saveMessage st.store sys
    (⟨sessions1, saved.1⟩,
      Output.send ws (Frame.loginSuccess userId)
        :: histOut ++ broadcastSends sessions1 isOpen sys (some ws))

/-- The TEXT message object built inside handleTextMessage. -/
def mkTextMessage (userId : String) (d : ClientMsg) (now : Nat)
    (freshId : String) : Message :=
  { type := "TEXT", id := jsOrStr d.id freshId, senderId := some userId,
    content := jsStr d.content, timestamp := jsOrNat d.timestamp now }

/-- MessageHandler.handleTextMessage: authentication check, empty-content
check, updateActivity, best-effort persist, then broadcast excluding the
sender's connection. -/
def handleTextMessage (st : ServerState) (isOpen : ConnId → Bool)
    (ws : ConnId) (d : ClientMsg) (now : Nat) (freshId : String) :
    ServerState × List Output :=
  match SessionManager.findUserIdByWs st.sessions ws with
  | none => (st, [Output.send ws (Frame.error "Not authenticated")])
  | some userId =>
    if jsTrim (jsStr d.content) == "" then
      (st, [Output.send ws (Frame.error "Empty message not allowed")])
    else
      let sessions1 := SessionManager.updateActivity st.sessions userId now
      let m := mkTextMessage userId d now freshId
      let saved := StorageService.saveMessage st.store m
      (⟨sessions1, saved.1⟩, broadcastSends sessions1 isOpen m (some ws))

/-- The media message object built inside handleMediaMessage (its `type` is
the client-declared IMAGE/VIDEO/AUDIO). -/
def mkMediaMessage (userId : String) (d : ClientMsg) (now : Nat)
    (freshId : String) : Message :=
  { type := jsStr d.type, id := jsOrStr d.id freshId, senderId := some userId,
    content := jsStr d.content, timestamp := jsOrNat d.timestamp now }

/-- MessageHandler.handleMediaMessage: as handleTextMessage, but the
broadcast has no exclusion — it reaches the sender's connection too. -/
def handleMediaMessage (st : ServerState) (isOpen : ConnId → Bool)
    (ws : ConnId) (d : ClientMsg) (now : Nat) (freshId : String) :
    ServerState × List Output :=
  match SessionManager.findUserIdByWs st.sessions ws with
  | none => (st, [Output.send ws (Frame.error "Not authenticated")])
  | some userId =>
    if jsTrim (jsStr d.content) == "" then
      (st, [Output.send ws (Frame.error "Empty media content not allowed")])
    else
      let sessions1 := SessionManager.updateActivity st.sessions userId now
      let m := mkMediaMessage userId d now freshId
      let saved := StorageService.saveMessage st.store m
      (⟨sessions1, saved.1⟩, broadcastSends sessions1 isOpen m none)

/-- MessageHandler.handleGetHistory: authenticate; then destructure
`{ lastMessageId, limit = 20 }` — the default 20 applies only when the
`limit` field is absent — query the store, and answer with HISTORY_RESPONSE
whose `hasMore` is `messages.length === limit`.  It performs no state
change. -/
def handleGetHistory (st : ServerState) (ws : ConnId) (d : ClientMsg) :
    List Output :=
  match SessionManager.findUserIdByWs st.sessions ws with
  | none => [Output.send ws (Frame.error "Not authenticated")]
  | some _ =>
    let limit := d.limit.getD 20
    let msgs := StorageService.getMessagesBefore st.store d.lastMessageId limit
    [Output.send ws (Frame.historyResponse msgs (msgs.length == limit))]

end MessageHandler

namespace WebSocketServer

/-- WebSocketServer.sendErrorResponse: sends an ERROR frame only when the
connection's `readyState` is OPEN. -/
def sendErrorResponse (isOpen : ConnId → Bool) (ws : ConnId) (msg : String) :
    List Output :=
  if isOpen ws then [Output.send ws (Frame.error msg)] else []

/-- WebSocketServer.handleMessage: parse, validate, then dispatch on the
message type; JSON parse failure and validation failure each produce a single
ERROR response and no state change.  The SYSTEM arm of the switch is dead
code (validation already rejects SYSTEM), kept for fidelity. -/
def handleMessage (st : ServerState) (isOpen : ConnId → Bool) (ws : ConnId)
    (raw : RawPayload) (now : Nat) (freshId : String) :
    ServerState × List Output :=
  match raw with
  | RawPayload.malformed => (st, sendErrorResponse isOpen ws "Invalid JSON format")
  | RawPayload.parsed p =>
    match MessageHandler.validateMessage p with
    | some err => (st, sendErrorResponse isOpen ws err)
    | none =>
      match p with
      | Parsed.notObject => (st, sendErrorResponse isOpen ws "Message must be an object")
      | Parsed.obj m =>
        let t := jsStr m.type
        if t == "LOGIN" then MessageHandler.handleLogin st isOpen ws m now freshId
        else if t == "TEXT" then MessageHandler.handleTextMessage st isOpen ws m now freshId
        else if t == "IMAGE" || t == "VIDEO" || t == "AUDIO" then
          MessageHandler.handleMediaMessage st isOpen ws m now freshId
        else if t == "GET_HISTORY" then (st, MessageHandler.handleGetHistory st ws m)
        else if t == "SYSTEM" then
          (st, sendErrorResponse isOpen ws "SYSTEM messages can only be sent by server")
        else (st, sendErrorResponse isOpen ws ("Unknown message type: " ++ t))

/-- The SYSTEM "left" notice built inside handleClose. -/
def leftNotice (userId : String) (now : Nat) (freshId : String) : Message :=
  { type := "SYSTEM", id := freshId, senderId := none,
    content := userId ++ " left the chat", timestamp := now }

/-- WebSocketServer.handleClose: if the closing connection is bound, remove
the session, persist the SYSTEM left notice (best-effort) and broadcast it to
the remaining sessions. -/
def handleClose (st : ServerState) (isOpen : ConnId → Bool) (ws : ConnId)
    (now : Nat) (freshId : String) : ServerState × List Output :=
  match SessionManager.findUserIdByWs st.sessions ws with
  | none => (st, [])
  | some userId =>
    let sessions1 := SessionManager.removeSession st.sessions userId
    let sys := leftNotice userId now freshId
    let saved := StorageService.saveMessage st.store sys
    (⟨sessions1, saved.1⟩, broadcastSends sessions1 isOpen sys none)

end WebSocketServer

/-! ## Server-level events and reachability -/

/-- An external event driving the broker: an inbound payload on a
connection, or a connection close. -/
inductive Event where
  | inbound (ws : ConnId) (raw : RawPayload) (isOpen : ConnId → Bool)
      (now : Nat) (freshId : String)
  | close (ws : ConnId) (isOpen : ConnId → Bool) (now : Nat) (freshId : String)

/-- State transition of one event. -/
def stepEvent (st : ServerState) : Event → ServerState
  | Event.inbound ws raw isOpen now fid =>
    (WebSocketServer.handleMessage st isOpen ws raw now fid).1
  | Event.close ws isOpen now fid =>
    (WebSocketServer.handleClose st isOpen ws now fid).1

/-- Run a sequence of events. -/
def runEvents (st : ServerState) (evs : List Event) : ServerState :=
  evs.foldl stepEvent st

/-- The broker's start state: empty registry over a given store. -/
def initState (s0 : Store) : ServerState := ⟨[], s0⟩

/-- A state reachable by some sequence of LOGIN / message / disconnect
events from a start state. -/
def ReachableState (st : ServerState) : Prop :=
  ∃ s0 evs, st = runEvents (initState s0) evs

/-! ## Helper lemmas about broadcast and the registry -/

lemma broadcast_mem_of_mem (sessions : List Session) (isOpen : ConnId → Bool)
    (m : Message) (ex : Option ConnId) (s : Session)
    (hs : s ∈ sessions) (hex : some s.ws ≠ ex) (hop : isOpen s.ws = true) :
    Output.send s.ws (Frame.chat m) ∈ broadcastSends sessions isOpen m ex := by
  unfold broadcastSends
  exact List.mem_map.mpr ⟨s, List.mem_filter.mpr ⟨hs, by simp [hex, hop]⟩, rfl⟩

lemma broadcast_mem_elim (sessions : List Session) (isOpen : ConnId → Bool)
    (m : Message) (ex : Option ConnId) (out : Output)
    (h : out ∈ broadcastSends sessions isOpen m ex) :
    ∃ s ∈ sessions, out = Output.send s.ws (Frame.chat m) ∧
      some s.ws ≠ ex ∧ isOpen s.ws = true := by
  unfold broadcastSends at h
  obtain ⟨s, hs, rfl⟩ := List.mem_map.mp h
  have hf := List.mem_filter.mp hs
  refine ⟨s, hf.1, rfl, ?_, ?_⟩
  · have := hf.2
    simp only [Bool.and_eq_true, bne_iff_ne, ne_eq] at this
    exact this.1
  · have := hf.2
    simp only [Bool.and_eq_true] at this
    exact this.2

lemma updateActivity_mem (l : List Session) (u : String) (now : Nat)
    (s : Session) (hs : s ∈ l) :
    ∃ t ∈ SessionManager.updateActivity l u now,
      t.userId = s.userId ∧ t.ws = s.ws := by
  unfold SessionManager.updateActivity
  refine ⟨if s.userId == u then { s with lastActivity := now } else s,
    List.mem_map_of_mem _ hs, ?_⟩
  by_cases h : s.userId == u <;> simp [h]

lemma updateActivity_mem_elim (l : List Session) (u : String) (now : Nat)
    (t : Session) (ht : t ∈ SessionManager.updateActivity l u now) :
    ∃ s ∈ l, t.userId = s.userId ∧ t.ws = s.ws := by
  unfold SessionManager.updateActivity at ht
  obtain ⟨s, hs, rfl⟩ := List.mem_map.mp ht
  refine ⟨s, hs, ?_⟩
  by_cases h : s.userId == u <;> simp [h]

lemma findUserIdByWs_some (l : List Session) (ws : ConnId) (uid : String)
    (h : SessionManager.findUserIdByWs l ws = some uid) :
    ∃ s ∈ l, s.ws = ws ∧ s.userId = uid := by
  unfold SessionManager.findUserIdByWs at h
  cases hf : l.find? (fun t => t.ws == ws) with
  | none => rw [hf] at h; simp at h
  | some s =>
    rw [hf] at h
    simp only [Option.map_some'] at h
    have hmem := List.mem_of_find?_eq_some hf
    have hp := List.find?_some hf
    simp only [beq_iff_eq] at hp
    exact ⟨s, hmem, hp, by injection h⟩

/-! ## C1 — broadcast asymmetry -/

/-- C1: with at least two registered sessions, a valid TEXT from an
authenticated sender is broadcast to every registered session whose open
connection differs from the sender's, and nothing at all is sent to the
sender's connection; a valid IMAGE/VIDEO/AUDIO is broadcast to every
registered session with an open connection, including the sender's own
connection. -/
theorem broadcast_asymmetry
    (st : ServerState) (isOpen : ConnId → Bool) (ws : ConnId)
    (dT dM : ClientMsg) (uid : String) (now : Nat) (fidT fidM : String)
    (hTwo : 2 ≤ st.sessions.length)
    (hauth : SessionManager.findUserIdByWs st.sessions ws = some uid)
    (hcT : jsTrim (jsStr dT.content) ≠ "")
    (hcM : jsTrim (jsStr dM.content) ≠ "")
    (hmedia : dM.type = some "IMAGE" ∨ dM.type = some "VIDEO" ∨ dM.type = some "AUDIO") :
    (∀ s ∈ st.sessions, s.ws ≠ ws → isOpen s.ws = true →
        Output.send s.ws (Frame.chat (MessageHandler.mkTextMessage uid dT now fidT)) ∈
          (MessageHandler.handleTextMessage st isOpen ws dT now fidT).2)
    ∧ (∀ fr : Frame,
        Output.send ws fr ∉ (MessageHandler.handleTextMessage st isOpen ws dT now fidT).2)
    ∧ (∀ s ∈ st.sessions, isOpen s.ws = true →
        Output.send s.ws (Frame.chat (MessageHandler.mkMediaMessage uid dM now fidM)) ∈
          (MessageHandler.handleMediaMessage st isOpen ws dM now fidM).2)
    ∧ (isOpen ws = true →
        Output.send ws (Frame.chat (MessageHandler.mkMediaMessage uid dM now fidM)) ∈
          (MessageHandler.handleMediaMessage st isOpen ws dM now fidM).2) := by
  have hbT : (jsTrim (jsStr dT.content) == "") = false := beq_eq_false_iff_ne.mpr hcT
  have hbM : (jsTrim (jsStr dM.content) == "") = false := beq_eq_false_iff_ne.mpr hcM
  have hText : (MessageHandler.handleTextMessage st isOpen ws dT now fidT).2 =
      broadcastSends (SessionManager.updateActivity st.sessions uid now) isOpen
        (MessageHandler.mkTextMessage uid dT now fidT) (some ws) := by
    simp [MessageHandler.handleTextMessage, hauth, hbT]
  have hMedia : (MessageHandler.handleMediaMessage st isOpen ws dM now fidM).2 =
      broadcastSends (SessionManager.updateActivity st.sessions uid now) isOpen
        (MessageHandler.mkMediaMessage uid dM now fidM) none := by
    simp [MessageHandler.handleMediaMessage, hauth, hbM]
  refine ⟨?_, ?_, ?_, ?_⟩
  · intro s hs hws hop
    rw [hText]
    obtain ⟨t, ht, _, htw⟩ := updateActivity_mem st.sessions uid now s hs
    have := broadcast_mem_of_mem (SessionManager.updateActivity st.sessions uid now)
      isOpen (MessageHandler.mkTextMessage uid dT now fidT) (some ws) t ht
      (by rw [htw]; exact fun hc => hws (Option.some_injective _ hc)) (by rw [htw]; exact hop)
    rwa [htw] at this
  · intro fr hmem
    rw [hText] at hmem
    obtain ⟨t, _, heq, hex, _⟩ := broadcast_mem_elim _ isOpen _ (some ws) _ hmem
    have hws : ws = t.ws := by injection heq
    exact hex (by rw [hws])
  · intro s hs hop
    rw [hMedia]
    obtain ⟨t, ht, _, htw⟩ := updateActivity_mem st.sessions uid now s hs
    have := broadcast_mem_of_mem (SessionManager.updateActivity st.sessions uid now)
      isOpen (MessageHandler.mkMediaMessage uid dM now fidM) none t ht (by simp)
      (by rw [htw]; exact hop)
    rwa [htw] at this
  · intro hop
    rw [hMedia]
    obtain ⟨s0, hs0, hws0, _⟩ := findUserIdByWs_some st.sessions ws uid hauth
    obtain ⟨t, ht, _, htw⟩ := updateActivity_mem st.sessions uid now s0 hs0
    have := broadcast_mem_of_mem (SessionManager.updateActivity st.sessions uid now)
      isOpen (MessageHandler.mkMediaMessage uid dM now fidM) none t ht (by simp)
      (by rw [htw, hws0]; exact hop)
    rwa [htw, hws0] at this

/-- Concrete data for the C1 witness: sessions A on connection 1 and B on
connection 2, all connections open, A sends a TEXT and an IMAGE. -/
def stW1 : ServerState := ⟨[⟨"A", 1, 0, 0⟩, ⟨"B", 2, 0, 0⟩], ⟨[], false, false⟩⟩

def dTW1 : ClientMsg := { type := some "TEXT", content := some "hello" }

def dMW1 : ClientMsg := { type := some "IMAGE", content := some "pix" }

/-- Witness for C1 at a concrete two-session state. -/
theorem broadcast_asymmetry_witness :
    Output.send 2 (Frame.chat (MessageHandler.mkTextMessage "A" dTW1 5 "t1")) ∈
      (MessageHandler.handleTextMessage stW1 (fun _ => true) 1 dTW1 5 "t1").2
    ∧ Output.send 1 (Frame.chat (MessageHandler.mkTextMessage "A" dTW1 5 "t1")) ∉
      (MessageHandler.handleTextMessage stW1 (fun _ => true) 1 dTW1 5 "t1").2
    ∧ Output.send 1 (Frame.chat (MessageHandler.mkMediaMessage "A" dMW1 5 "t2")) ∈
      (MessageHandler.handleMediaMessage stW1 (fun _ => true) 1 dMW1 5 "t2").2 := by
  have h := broadcast_asymmetry stW1 (fun _ => true) 1 dTW1 dMW1 "A" 5 "t1" "t2"
    (by decide) (by decide) (by decide) (by decide) (Or.inl rfl)
  exact ⟨h.1 ⟨"B", 2, 0, 0⟩ (by decide) (by decide) rfl,
    h.2.1 (Frame.chat (MessageHandler.mkTextMessage "A" dTW1 5 "t1")),
    h.2.2.2 rfl⟩

/-! ## C2 — history range correctness of the file-backed store -/

lemma findIndexOpt_eq_none (p : Message → Bool) (l : List Message)
    (h : ∀ m ∈ l, p m = false) : StorageService.findIndexOpt p l = none := by
  induction l with
  | nil => rfl
  | cons a t ih =>
    simp [StorageService.findIndexOpt, h a (List.mem_cons_self a t),
      ih (fun m hm => h m (List.mem_cons_of_mem a hm))]

lemma findIndexOpt_of_nodup (l : List Message) (k : Nat) (hk : k < l.length)
    (hnd : (l.map Message.id).Nodup) :
    StorageService.findIndexOpt (fun m => m.id == (l.get ⟨k, hk⟩).id) l = some k := by
  induction l generalizing k with
  | nil => simp at hk
  | cons a t ih =>
    cases k with
    | zero => simp [StorageService.findIndexOpt]
    | succ k =>
      have hk' : k < t.length := by simpa using hk
      have hgt : (a :: t).get ⟨k + 1, hk⟩ = t.get ⟨k, hk'⟩ := rfl
      rw [List.map_cons, List.nodup_cons] at hnd
      have hne : (a.id == (t.get ⟨k, hk'⟩).id) = false := by
        refine beq_eq_false_iff_ne.mpr (fun h => hnd.1 ?_)
        rw [h]
        exact List.mem_map_of_mem Message.id (t.get_mem k hk')
      rw [hgt]
      have hih := ih k hk' hnd.2
      have hne' : ¬ a.id = (t.get ⟨k, hk'⟩).id := beq_eq_false_iff_ne.mp hne
      simp only [List.get_eq_getElem] at hih hne'
      simp [StorageService.findIndexOpt, hne', hih]

/-- C2 amended: for a store with distinct message ids, querying before the
message at index `k` returns exactly the slice of indices
`[k − limit, k)` — hence at most `limit` messages, all with index `< k`,
nearest `k`, oldest-to-newest; an absent or unmatched id with a positive
limit returns the most recent `limit` messages oldest-to-newest; but with
`limit = 0` an absent/unmatched id returns ALL saved messages, because JS
`slice(-0)` is `slice(0)`. -/
theorem getMessagesBefore_range
    (msgs : List Message) (k limit : Nat) (wf : Bool) (hk : k < msgs.length)
    (hnd : (msgs.map Message.id).Nodup) :
    (StorageService.getMessagesBefore ⟨msgs, false, wf⟩ (some ((msgs.get ⟨k, hk⟩).id)) limit
        = (msgs.take k).drop (k - limit))
    ∧ (StorageService.getMessagesBefore ⟨msgs, false, wf⟩ (some ((msgs.get ⟨k, hk⟩).id)) limit).length ≤ limit
    ∧ (StorageService.getMessagesBefore ⟨msgs, false, wf⟩ (some ((msgs.get ⟨k, hk⟩).id)) limit) <:+ msgs.take k
    ∧ (∀ mid, (∀ m ∈ msgs, m.id ≠ mid) → 1 ≤ limit →
        StorageService.getMessagesBefore ⟨msgs, false, wf⟩ (some mid) limit
          = msgs.drop (msgs.length - limit))
    ∧ (1 ≤ limit →
        StorageService.getMessagesBefore ⟨msgs, false, wf⟩ none limit
          = msgs.drop (msgs.length - limit))
    ∧ StorageService.getMessagesBefore ⟨msgs, false, wf⟩ none 0 = msgs := by
  have heq : StorageService.getMessagesBefore ⟨msgs, false, wf⟩
      (some ((msgs.get ⟨k, hk⟩).id)) limit = (msgs.take k).drop (k - limit) := by
    have hfi := findIndexOpt_of_nodup msgs k hk hnd
    simp only [List.get_eq_getElem] at hfi
    simp [StorageService.getMessagesBefore, StorageService.jsSlice, hfi, List.drop_take]
  refine ⟨heq, ?_, ?_, ?_, ?_, ?_⟩
  · rw [heq]
    simp only [List.length_drop, List.length_take]
    omega
  · rw [heq]
    exact List.drop_suffix _ _
  · intro mid hmid hlim
    have h0 : (limit == 0) = false := beq_eq_false_iff_ne.mpr (by omega)
    have hnone : StorageService.findIndexOpt (fun m => m.id == mid) msgs = none :=
      findIndexOpt_eq_none _ _ (fun m hm => beq_eq_false_iff_ne.mpr (hmid m hm))
    simp [StorageService.getMessagesBefore, StorageService.jsSliceNeg, hnone, h0]
  · intro hlim
    have h0 : (limit == 0) = false := beq_eq_false_iff_ne.mpr (by omega)
    simp [StorageService.getMessagesBefore, StorageService.jsSliceNeg, h0]
  · simp [StorageService.getMessagesBefore, StorageService.jsSliceNeg]

/-- Concrete store for the C2 theorems: three TEXT messages with ids
a, b, c saved in order. -/
def msgsW2 : List Message :=
  [⟨"TEXT", "a", some "A", "one", 0⟩, ⟨"TEXT", "b", some "A", "two", 1⟩,
   ⟨"TEXT", "c", some "A", "three", 2⟩]

/-- Witness for the amended C2 at `k = 2`, `limit = 1`: the query anchored at
message c with limit 1 returns exactly [b]. -/
theorem getMessagesBefore_range_witness :
    2 < msgsW2.length ∧ (msgsW2.map Message.id).Nodup
    ∧ StorageService.getMessagesBefore ⟨msgsW2, false, false⟩ (some "c") 1 =
        (msgsW2.take 2).drop 1 := by
  have h := getMessagesBefore_range msgsW2 2 1 false (by decide) (by decide)
  exact ⟨by decide, by decide, h.1⟩

/-- C2 counterexample: with `limit = 0` and an absent id the claim requires
"the most recent 0 messages", i.e. `[]`, but the code returns the whole
store (`slice(-0)` is `slice(0)`). -/
theorem getMessagesBefore_zero_limit_cex :
    StorageService.getMessagesBefore ⟨msgsW2, false, false⟩ none 0 = msgsW2
    ∧ (StorageService.getMessagesBefore ⟨msgsW2, false, false⟩ none 0).length ≠ 0 := by
  decide

/-! ## C3 — GET_HISTORY response contract -/

/-- C3 amended: the effective limit is `d.limit` when the field is present —
including a falsy `0` — and 20 only when it is omitted (JS destructuring
default, not `limit||20`); the response is a single HISTORY_RESPONSE whose
`hasMore` is true iff the returned count equals that effective limit. -/
theorem get_history_contract
    (st : ServerState) (ws : ConnId) (d : ClientMsg) (uid : String)
    (hauth : SessionManager.findUserIdByWs st.sessions ws = some uid) :
    (d.limit = none →
      MessageHandler.handleGetHistory st ws d =
        [Output.send ws (Frame.historyResponse
          (StorageService.getMessagesBefore st.store d.lastMessageId 20)
          ((StorageService.getMessagesBefore st.store d.lastMessageId 20).length == 20))])
    ∧ (∀ n, d.limit = some n →
      MessageHandler.handleGetHistory st ws d =
        [Output.send ws (Frame.historyResponse
          (StorageService.getMessagesBefore st.store d.lastMessageId n)
          ((StorageService.getMessagesBefore st.store d.lastMessageId n).length == n))]) := by
  constructor
  · intro h
    simp [MessageHandler.handleGetHistory, hauth, h]
  · intro n h
    simp [MessageHandler.handleGetHistory, hauth, h]

/-- Concrete state for the C3 theorems: user A on connection 1, a store of
twenty saved messages. -/
def msgsH3 : List Message := List.replicate 20 ⟨"TEXT", "x", some "A", "m", 0⟩

def stH3 : ServerState := ⟨[⟨"A", 1, 0, 0⟩], ⟨msgsH3, false, false⟩⟩

/-- Witness for the amended C3: with `limit` omitted the effective limit is
20. -/
theorem get_history_contract_witness :
    SessionManager.findUserIdByWs stH3.sessions 1 = some "A"
    ∧ MessageHandler.handleGetHistory stH3 1 { type := some "GET_HISTORY" } =
      [Output.send 1 (Frame.historyResponse
        (StorageService.getMessagesBefore stH3.store none 20)
        ((StorageService.getMessagesBefore stH3.store none 20).length == 20))] := by
  exact ⟨by decide, (get_history_contract stH3 1 { type := some "GET_HISTORY" } "A" (by decide)).1 rfl⟩

/-- C3 counterexample: a supplied `limit: 0` is NOT replaced by 20.  On a
20-message store the code answers with all twenty messages and
`hasMore = false` (since 20 ≠ 0), whereas the claim (`limit||20`) would
demand the most recent twenty with `hasMore = true`. -/
theorem get_history_limit_zero_cex :
    MessageHandler.handleGetHistory stH3 1 { type := some "GET_HISTORY", limit := some 0 } =
      [Output.send 1 (Frame.historyResponse msgsH3 false)]
    ∧ MessageHandler.handleGetHistory stH3 1 { type := some "GET_HISTORY", limit := some 0 } ≠
      [Output.send 1 (Frame.historyResponse msgsH3 true)] := by
  decide

/-! ## C10 — saveMessage is not atomic on write failure -/

/-- C10 amended: when the file write fails, saveMessage propagates the error
(`.2 = true`) but the message has already been appended to the in-memory
list: getAllMessages returns it, and any query whose range covers the new
last position (an absent id with positive limit) returns it; the store state
is not rolled back. -/
theorem saveMessage_not_atomic
    (s : Store) (m : Message) (hwf : s.writeFails = true)
    (hrf : s.readFails = false) :
    (StorageService.saveMessage s m).2 = true
    ∧ StorageService.getAllMessages (StorageService.saveMessage s m).1 = s.messages ++ [m]
    ∧ m ∈ StorageService.getAllMessages (StorageService.saveMessage s m).1
    ∧ (∀ limit, 1 ≤ limit →
        m ∈ StorageService.getMessagesBefore (StorageService.saveMessage s m).1 none limit) := by
  refine ⟨hwf, rfl, by simp [StorageService.saveMessage, StorageService.getAllMessages], ?_⟩
  intro limit hlim
  have h0 : (limit == 0) = false := beq_eq_false_iff_ne.mpr (by omega)
  have hdrop : (s.messages ++ [m]).length - limit ≤ s.messages.length := by
    simp only [List.length_append, List.length_cons, List.length_nil]
    omega
  simp only [StorageService.saveMessage, StorageService.getMessagesBefore,
    StorageService.jsSliceNeg, hrf, h0, Bool.false_eq_true, if_false]
  rw [List.drop_append_of_le_length hdrop]
  simp

/-- Messages for the C10 theorems. -/
def mC10a : Message := ⟨"TEXT", "a", some "A", "one", 0⟩

def mC10b : Message := ⟨"TEXT", "b", some "A", "two", 1⟩

/-- Witness for the amended C10 on a concrete failing store. -/
theorem saveMessage_not_atomic_witness :
    (StorageService.saveMessage ⟨[mC10a], false, true⟩ mC10b).2 = true
    ∧ mC10b ∈ StorageService.getAllMessages
        (StorageService.saveMessage ⟨[mC10a], false, true⟩ mC10b).1
    ∧ mC10b ∈ StorageService.getMessagesBefore
        (StorageService.saveMessage ⟨[mC10a], false, true⟩ mC10b).1 none 5 := by
  have h := saveMessage_not_atomic ⟨[mC10a], false, true⟩ mC10b rfl rfl
  exact ⟨h.1, h.2.2.1, h.2.2.2 5 (by decide)⟩

/-- C10 counterexample to the claim's universal "every subsequent
getMessagesBefore includes that message": after a failed save of message b,
the query anchored at the earlier message a returns the messages BEFORE a —
which cannot contain b. -/
theorem saveMessage_not_atomic_cex :
    (StorageService.saveMessage ⟨[mC10a], false, true⟩ mC10b).2 = true
    ∧ mC10b ∉ StorageService.getMessagesBefore
        (StorageService.saveMessage ⟨[mC10a], false, true⟩ mC10b).1 (some "a") 5 := by
  decide

/-! ## C4 — rejection of unauthenticated traffic -/

lemma sendErrorResponse_mem (isOpen : ConnId → Bool) (ws : ConnId) (msg : String)
    (out : Output) (h : out ∈ WebSocketServer.sendErrorResponse isOpen ws msg) :
    out = Output.send ws (Frame.error msg) := by
  unfold WebSocketServer.sendErrorResponse at h
  by_cases hop : isOpen ws <;> simp [hop] at h
  exact h

lemma handleMessage_unauth_eq
    (st : ServerState) (isOpen : ConnId → Bool) (ws : ConnId) (m : ClientMsg)
    (now : Nat) (fid : String)
    (hunauth : SessionManager.findUserIdByWs st.sessions ws = none)
    (hval : MessageHandler.validateMessage (Parsed.obj m) = none)
    (htype : jsStr m.type = "TEXT" ∨ jsStr m.type = "IMAGE" ∨ jsStr m.type = "VIDEO"
      ∨ jsStr m.type = "AUDIO" ∨ jsStr m.type = "GET_HISTORY") :
    WebSocketServer.handleMessage st isOpen ws (RawPayload.parsed (Parsed.obj m)) now fid =
      (st, [Output.send ws (Frame.error "Not authenticated")]) := by
  rcases htype with h | h | h | h | h <;>
    simp [WebSocketServer.handleMessage, hval, h, MessageHandler.handleTextMessage,
      MessageHandler.handleMediaMessage, MessageHandler.handleGetHistory, hunauth]

/-- C4 amended: for every connection with no bound session, a non-LOGIN
inbound object leaves the registry and store unchanged and produces only
ERROR sends to that connection; when the message passes structural
validation and its type is TEXT, IMAGE, VIDEO, AUDIO or GET_HISTORY the
error is exactly "Not authenticated" (SYSTEM, unknown types and
structurally invalid messages are rejected with errors naming those
failures instead, because validation precedes the authentication check). -/
theorem unauthenticated_rejection
    (st : ServerState) (isOpen : ConnId → Bool) (ws : ConnId) (m : ClientMsg)
    (now : Nat) (fid : String)
    (hunauth : SessionManager.findUserIdByWs st.sessions ws = none)
    (hnotlogin : jsStr m.type ≠ "LOGIN") :
    (WebSocketServer.handleMessage st isOpen ws (RawPayload.parsed (Parsed.obj m)) now fid).1 = st
    ∧ (∀ out ∈ (WebSocketServer.handleMessage st isOpen ws
          (RawPayload.parsed (Parsed.obj m)) now fid).2,
        ∃ e, out = Output.send ws (Frame.error e))
    ∧ (MessageHandler.validateMessage (Parsed.obj m) = none →
        (jsStr m.type = "TEXT" ∨ jsStr m.type = "IMAGE" ∨ jsStr m.type = "VIDEO"
          ∨ jsStr m.type = "AUDIO" ∨ jsStr m.type = "GET_HISTORY") →
        (WebSocketServer.handleMessage st isOpen ws
            (RawPayload.parsed (Parsed.obj m)) now fid).2 =
          [Output.send ws (Frame.error "Not authenticated")]) := by
  have hL : (jsStr m.type == "LOGIN") = false := beq_eq_false_iff_ne.mpr hnotlogin
  have hshape : ∃ outs, WebSocketServer.handleMessage st isOpen ws
      (RawPayload.parsed (Parsed.obj m)) now fid = (st, outs)
      ∧ ∀ out ∈ outs, ∃ e, out = Output.send ws (Frame.error e) := by
    cases hval : MessageHandler.validateMessage (Parsed.obj m) with
    | some err =>
      refine ⟨WebSocketServer.sendErrorResponse isOpen ws err,
        by simp [WebSocketServer.handleMessage, hval], ?_⟩
      intro out hout
      exact ⟨err, sendErrorResponse_mem isOpen ws err out hout⟩
    | none =>
      by_cases h2 : (jsStr m.type == "TEXT") = true
      · exact ⟨_, handleMessage_unauth_eq st isOpen ws m now fid hunauth hval
          (Or.inl (by simpa using h2)),
          by intro out hout; simp at hout; exact ⟨"Not authenticated", hout⟩⟩
      by_cases h3 : (jsStr m.type == "IMAGE") = true
      · exact ⟨_, handleMessage_unauth_eq st isOpen ws m now fid hunauth hval
          (Or.inr (Or.inl (by simpa using h3))),
          by intro out hout; simp at hout; exact ⟨"Not authenticated", hout⟩⟩
      by_cases h4 : (jsStr m.type == "VIDEO") = true
      · exact ⟨_, handleMessage_unauth_eq st isOpen ws m now fid hunauth hval
          (Or.inr (Or.inr (Or.inl (by simpa using h4)))),
          by intro out hout; simp at hout; exact ⟨"Not authenticated", hout⟩⟩
      by_cases h5 : (jsStr m.type == "AUDIO") = true
      · exact ⟨_, handleMessage_unauth_eq st isOpen ws m now fid hunauth hval
          (Or.inr (Or.inr (Or.inr (Or.inl (by simpa using h5))))),
          by intro out hout; simp at hout; exact ⟨"Not authenticated", hout⟩⟩
      by_cases h6 : (jsStr m.type == "GET_HISTORY") = true
      · exact ⟨_, handleMessage_unauth_eq st isOpen ws m now fid hunauth hval
          (Or.inr (Or.inr (Or.inr (Or.inr (by simpa using h6))))),
          by intro out hout; simp at hout; exact ⟨"Not authenticated", hout⟩⟩
      by_cases h7 : (jsStr m.type == "SYSTEM") = true
      · exfalso
        cases hmt : m.type with
        | none =>
          rw [hmt] at h7
          simp [jsStr] at h7
        | some s =>
          rw [hmt] at h7
          simp only [jsStr, Option.getD_some, beq_iff_eq] at h7
          subst h7
          simp [MessageHandler.validateMessage, hmt, jsFalsy, jsStr] at hval
      · refine ⟨WebSocketServer.sendErrorResponse isOpen ws
          ("Unknown message type: " ++ jsStr m.type), ?_, ?_⟩
        · simp [WebSocketServer.handleMessage, hval, hL, h2, h3, h4, h5, h6, h7]
        · intro out hout
          exact ⟨_, sendErrorResponse_mem _ _ _ out hout⟩
  obtain ⟨outs, heq, hmem⟩ := hshape
  refine ⟨by rw [heq], ?_, ?_⟩
  · intro out hout
    rw [heq] at hout
    exact hmem out hout
  · intro hval htype
    rw [handleMessage_unauth_eq st isOpen ws m now fid hunauth hval htype]

/-- Witness for the amended C4: a TEXT from a connection with no session. -/
theorem unauthenticated_rejection_witness :
    SessionManager.findUserIdByWs (([] : List Session)) 7 = none
    ∧ (WebSocketServer.handleMessage ⟨[], ⟨[], false, false⟩⟩ (fun _ => true) 7
        (RawPayload.parsed (Parsed.obj { type := some "TEXT", content := some "hi" })) 0 "f").2 =
      [Output.send 7 (Frame.error "Not authenticated")] := by
  have h := unauthenticated_rejection ⟨[], ⟨[], false, false⟩⟩ (fun _ => true) 7
    { type := some "TEXT", content := some "hi" } 0 "f" rfl (by decide)
  exact ⟨rfl, h.2.2 (by decide) (Or.inl rfl)⟩

/-- C4 counterexample: a SYSTEM message from an unauthenticated connection is
a non-LOGIN inbound message, yet the ERROR it gets carries the validation
text, not "Not authenticated". -/
theorem unauthenticated_rejection_cex :
    (WebSocketServer.handleMessage ⟨[], ⟨[], false, false⟩⟩ (fun _ => true) 7
        (RawPayload.parsed (Parsed.obj { type := some "SYSTEM", content := some "x" })) 0 "f").2 =
      [Output.send 7 (Frame.error "SYSTEM messages cannot be sent by clients")]
    ∧ (WebSocketServer.handleMessage ⟨[], ⟨[], false, false⟩⟩ (fun _ => true) 7
        (RawPayload.parsed (Parsed.obj { type := some "SYSTEM", content := some "x" })) 0 "f").2 ≠
      [Output.send 7 (Frame.error "Not authenticated")] := by
  decide

/-! ## C5 — malformed input never crashes -/

/-- C5: an unparseable payload, and a parsed object missing the required
field for its declared type (no type; LOGIN without userId; TEXT, IMAGE,
VIDEO or AUDIO without content), are each answered with exactly one ERROR
frame to that connection, with the session registry and the store unchanged
— the dispatch is a total function, so it terminates without an uncaught
exception — and handling any subsequent input from the resulting state is
identical to handling it from the original state. -/
theorem malformed_input_never_crashes
    (st : ServerState) (isOpen : ConnId → Bool) (ws : ConnId) (m : ClientMsg)
    (now : Nat) (fid : String)
    (hopen : isOpen ws = true)
    (hmiss : m.type = none
      ∨ (m.type = some "LOGIN" ∧ m.userId = none)
      ∨ ((m.type = some "TEXT" ∨ m.type = some "IMAGE" ∨ m.type = some "VIDEO"
            ∨ m.type = some "AUDIO") ∧ m.content = none)) :
    WebSocketServer.handleMessage st isOpen ws RawPayload.malformed now fid =
      (st, [Output.send ws (Frame.error "Invalid JSON format")])
    ∧ WebSocketServer.handleMessage st isOpen ws (RawPayload.parsed Parsed.notObject) now fid =
      (st, [Output.send ws (Frame.error "Message must be an object")])
    ∧ (∃ e, WebSocketServer.handleMessage st isOpen ws
        (RawPayload.parsed (Parsed.obj m)) now fid = (st, [Output.send ws (Frame.error e)]))
    ∧ (∀ (isOpen2 : ConnId → Bool) (ws2 : ConnId) (raw2 : RawPayload) (now2 : Nat)
        (fid2 : String),
        WebSocketServer.handleMessage
          (WebSocketServer.handleMessage st isOpen ws
            (RawPayload.parsed (Parsed.obj m)) now fid).1 isOpen2 ws2 raw2 now2 fid2
        = WebSocketServer.handleMessage st isOpen2 ws2 raw2 now2 fid2) := by
  have hval : ∃ e, MessageHandler.validateMessage (Parsed.obj m) = some e := by
    rcases hmiss with h | ⟨h1, h2⟩ | ⟨h1, h2⟩
    · exact ⟨"Message must have a valid type field",
        by simp [MessageHandler.validateMessage, h, jsFalsy]⟩
    · exact ⟨"LOGIN message must have a valid userId field",
        by simp [MessageHandler.validateMessage, h1, h2, jsFalsy, jsStr]⟩
    · rcases h1 with h1 | h1 | h1 | h1 <;>
        exact ⟨jsStr m.type ++ " message must have a valid content field",
          by simp [MessageHandler.validateMessage, h1, h2, jsFalsy, jsStr]⟩
  obtain ⟨e, he⟩ := hval
  have hmain : WebSocketServer.handleMessage st isOpen ws
      (RawPayload.parsed (Parsed.obj m)) now fid = (st, [Output.send ws (Frame.error e)]) := by
    simp [WebSocketServer.handleMessage, he, WebSocketServer.sendErrorResponse, hopen]
  refine ⟨?_, ?_, ⟨e, hmain⟩, ?_⟩
  · simp [WebSocketServer.handleMessage, WebSocketServer.sendErrorResponse, hopen]
  · simp [WebSocketServer.handleMessage, MessageHandler.validateMessage,
      WebSocketServer.sendErrorResponse, hopen]
  · intro isOpen2 ws2 raw2 now2 fid2
    rw [hmain]

/-- Witness for C5: unparseable input and a typeless object on a concrete
state. -/
theorem malformed_input_never_crashes_witness :
    ((fun _ => true) : ConnId → Bool) 7 = true
    ∧ WebSocketServer.handleMessage ⟨[], ⟨[], false, false⟩⟩ (fun _ => true) 7
        RawPayload.malformed 0 "f" =
      (⟨[], ⟨[], false, false⟩⟩, [Output.send 7 (Frame.error "Invalid JSON format")]) := by
  have h := malformed_input_never_crashes ⟨[], ⟨[], false, false⟩⟩ (fun _ => true) 7
    { type := none } 0 "f" rfl (Or.inl rfl)
  exact ⟨rfl, h.1⟩

/-! ## C6 — LOGIN flow -/

/-- C6: an absent, empty or whitespace-only userId is rejected with an ERROR
and no registry change; a valid LOGIN registers the session and emits, in
order, LOGIN_SUCCESS, then (only when the loaded recent history — at most 50
messages, and `[]` when the underlying read fails, which does not fail the
login — is non-empty) one HISTORY_RESPONSE with it, then the broadcast of
the persisted SYSTEM joined notice to the other registered sessions;
nothing besides the acknowledgment and the history response is ever sent to
the sender's own connection. -/
theorem login_flow
    (st : ServerState) (isOpen : ConnId → Bool) (ws : ConnId) (d : ClientMsg)
    (uid : String) (now : Nat) (fid : String)
    (huid : d.userId = some uid) (htrim : jsTrim uid ≠ "") :
    MessageHandler.handleLogin st isOpen ws d now fid =
      (⟨SessionManager.createSession st.sessions uid ws now,
        (StorageService.saveMessage st.store (MessageHandler.joinedNotice uid now fid)).1⟩,
       Output.send ws (Frame.loginSuccess uid)
         :: (if (StorageService.getMessagesBefore st.store none 50).length > 0 then
              [Output.send ws (Frame.historyResponse
                (StorageService.getMessagesBefore st.store none 50)
                ((StorageService.getMessagesBefore st.store none 50).length == 50))]
            else [])
         ++ broadcastSends (SessionManager.createSession st.sessions uid ws now) isOpen
              (MessageHandler.joinedNotice uid now fid) (some ws))
    ∧ (∀ d2 : ClientMsg, jsTrim (jsStr d2.userId) = "" →
        MessageHandler.handleLogin st isOpen ws d2 now fid =
          (st, [Output.send ws (Frame.error "Invalid user ID")]))
    ∧ (StorageService.getMessagesBefore st.store none 50).length ≤ 50
    ∧ (∀ fr : Frame,
        Output.send ws fr ∈ (MessageHandler.handleLogin st isOpen ws d now fid).2 →
        fr = Frame.loginSuccess uid ∨
          fr = Frame.historyResponse (StorageService.getMessagesBefore st.store none 50)
            ((StorageService.getMessagesBefore st.store none 50).length == 50)) := by
  have hjs : jsStr d.userId = uid := by rw [huid]; rfl
  have hb : (jsTrim (jsStr d.userId) == "") = false := by
    rw [hjs]
    exact beq_eq_false_iff_ne.mpr htrim
  have hmain : MessageHandler.handleLogin st isOpen ws d now fid =
      (⟨SessionManager.createSession st.sessions uid ws now,
        (StorageService.saveMessage st.store (MessageHandler.joinedNotice uid now fid)).1⟩,
       Output.send ws (Frame.loginSuccess uid)
         :: (if (StorageService.getMessagesBefore st.store none 50).length > 0 then
              [Output.send ws (Frame.historyResponse
                (StorageService.getMessagesBefore st.store none 50)
                ((StorageService.getMessagesBefore st.store none 50).length == 50))]
            else [])
         ++ broadcastSends (SessionManager.createSession st.sessions uid ws now) isOpen
              (MessageHandler.joinedNotice uid now fid) (some ws)) := by
    simp [MessageHandler.handleLogin, hb, hjs, htrim]
  refine ⟨hmain, ?_, ?_, ?_⟩
  · intro d2 h2
    simp [MessageHandler.handleLogin, h2]
  · by_cases hrf : st.store.readFails
    · simp [StorageService.getMessagesBefore, hrf]
    · simp only [Bool.not_eq_true] at hrf
      have hgm : StorageService.getMessagesBefore st.store none 50 =
          st.store.messages.drop (st.store.messages.length - 50) := by
        simp [StorageService.getMessagesBefore, StorageService.jsSliceNeg, hrf]
      rw [hgm, List.length_drop]
      omega
  · intro fr hmem
    rw [hmain] at hmem
    rcases List.mem_cons.mp hmem with h | h
    · left
      have := (Output.send.injEq _ _ _ _).mp h
      exact this.2
    rcases List.mem_append.mp h with h | h
    · by_cases hl : (StorageService.getMessagesBefore st.store none 50).length > 0
      · rw [if_pos hl] at h
        right
        simp only [List.mem_singleton] at h
        have := (Output.send.injEq _ _ _ _).mp h
        exact this.2
      · rw [if_neg hl] at h
        simp at h
    · exfalso
      obtain ⟨t, _, heq, hex, _⟩ := broadcast_mem_elim _ _ _ _ _ h
      have hws : ws = t.ws := ((Output.send.injEq _ _ _ _).mp heq).1
      exact hex (by rw [hws])

/-- Concrete state for the C6 witness: existing user B on connection 2, one
stored message, A logs in from connection 1. -/
def stW6 : ServerState :=
  ⟨[⟨"B", 2, 0, 0⟩], ⟨[⟨"TEXT", "a", some "B", "hi", 0⟩], false, false⟩⟩

def dW6 : ClientMsg := { type := some "LOGIN", userId := some "A" }

/-- Witness for C6 at the concrete state. -/
theorem login_flow_witness :
    dW6.userId = some "A" ∧ jsTrim "A" ≠ ""
    ∧ MessageHandler.handleLogin stW6 (fun _ => true) 1 dW6 7 "n1" =
      (⟨SessionManager.createSession stW6.sessions "A" 1 7,
        (StorageService.saveMessage stW6.store (MessageHandler.joinedNotice "A" 7 "n1")).1⟩,
       Output.send 1 (Frame.loginSuccess "A")
         :: (if (StorageService.getMessagesBefore stW6.store none 50).length > 0 then
              [Output.send 1 (Frame.historyResponse
                (StorageService.getMessagesBefore stW6.store none 50)
                ((StorageService.getMessagesBefore stW6.store none 50).length == 50))]
            else [])
         ++ broadcastSends (SessionManager.createSession stW6.sessions "A" 1 7) (fun _ => true)
              (MessageHandler.joinedNotice "A" 7 "n1") (some 1)) := by
  exact ⟨rfl, by decide,
    (login_flow stW6 (fun _ => true) 1 dW6 "A" 7 "n1" rfl (by decide)).1⟩

/-! ## C7 — history read failures -/

/-- C7 amended: when the underlying store read throws, an authenticated
GET_HISTORY is answered with a HISTORY_RESPONSE carrying zero messages (no
error propagates); at login time, however, the failed initial load results
in NO history frame at all — the login succeeds and emits only the
acknowledgment and the joined-notice broadcast. -/
theorem history_read_failure_empty
    (st : ServerState) (isOpen : ConnId → Bool) (ws : ConnId)
    (dH dL : ClientMsg) (uid uid2 : String) (now : Nat) (fid : String)
    (hfail : st.store.readFails = true)
    (hauth : SessionManager.findUserIdByWs st.sessions ws = some uid)
    (huid : dL.userId = some uid2) (htrim : jsTrim uid2 ≠ "") :
    (∃ b, MessageHandler.handleGetHistory st ws dH =
        [Output.send ws (Frame.historyResponse [] b)])
    ∧ (MessageHandler.handleLogin st isOpen ws dL now fid).2 =
        Output.send ws (Frame.loginSuccess uid2)
          :: broadcastSends (SessionManager.createSession st.sessions uid2 ws now) isOpen
               (MessageHandler.joinedNotice uid2 now fid) (some ws)
    ∧ (∀ (msgs : List Message) (b : Bool),
        Output.send ws (Frame.historyResponse msgs b) ∉
          (MessageHandler.handleLogin st isOpen ws dL now fid).2) := by
  have hjs : jsStr dL.userId = uid2 := by rw [huid]; rfl
  have hb : (jsTrim (jsStr dL.userId) == "") = false := by
    rw [hjs]
    exact beq_eq_false_iff_ne.mpr htrim
  have hlogin : (MessageHandler.handleLogin st isOpen ws dL now fid).2 =
      Output.send ws (Frame.loginSuccess uid2)
        :: broadcastSends (SessionManager.createSession st.sessions uid2 ws now) isOpen
             (MessageHandler.joinedNotice uid2 now fid) (some ws) := by
    simp [MessageHandler.handleLogin, hb, hjs, htrim, StorageService.getMessagesBefore, hfail]
  refine ⟨?_, hlogin, ?_⟩
  · refine ⟨(0 == dH.limit.getD 20), ?_⟩
    simp [MessageHandler.handleGetHistory, hauth, StorageService.getMessagesBefore, hfail]
  · intro msgs b hmem
    rw [hlogin] at hmem
    rcases List.mem_cons.mp hmem with h | h
    · have := (Output.send.injEq _ _ _ _).mp h
      exact Frame.noConfusion this.2
    · obtain ⟨t, _, heq, _, _⟩ := broadcast_mem_elim _ _ _ _ _ h
      have := (Output.send.injEq _ _ _ _).mp heq
      exact Frame.noConfusion this.2

/-- Concrete state for the C7 theorems: user A on connection 1, a store that
holds one message but whose reads throw. -/
def stF7 : ServerState :=
  ⟨[⟨"A", 1, 0, 0⟩], ⟨[⟨"TEXT", "a", some "A", "hi", 0⟩], true, false⟩⟩

/-- Witness for the amended C7: a failing read answers GET_HISTORY with an
empty HISTORY_RESPONSE, and a login on the same state emits no history
frame. -/
theorem history_read_failure_witness :
    stF7.store.readFails = true
    ∧ (MessageHandler.handleLogin stF7 (fun _ => true) 1
        { type := some "LOGIN", userId := some "B" } 0 "f").2 =
      Output.send 1 (Frame.loginSuccess "B")
        :: broadcastSends (SessionManager.createSession stF7.sessions "B" 1 0) (fun _ => true)
             (MessageHandler.joinedNotice "B" 0 "f") (some 1)
    ∧ Output.send 1 (Frame.historyResponse [] false) ∉
        (MessageHandler.handleLogin stF7 (fun _ => true) 1
          { type := some "LOGIN", userId := some "B" } 0 "f").2 := by
  have h := history_read_failure_empty stF7 (fun _ => true) 1
    { type := some "GET_HISTORY" } { type := some "LOGIN", userId := some "B" }
    "A" "B" 0 "f" rfl rfl rfl (by decide)
  exact ⟨rfl, h.2.1, h.2.2 [] false⟩

/-- C7 counterexample: the claim says the client receives a HISTORY_RESPONSE
with zero messages for the login-time initial load too; in fact the login on
a read-failing store sends the acknowledgment and nothing else — no
HISTORY_RESPONSE frame of any kind. -/
theorem history_read_failure_cex :
    (MessageHandler.handleLogin ⟨[], ⟨[⟨"TEXT", "a", some "A", "hi", 0⟩], true, false⟩⟩
        (fun _ => true) 1 { type := some "LOGIN", userId := some "C" } 0 "f").2 =
      [Output.send 1 (Frame.loginSuccess "C")]
    ∧ Output.send 1 (Frame.historyResponse [] false) ∉
        (MessageHandler.handleLogin ⟨[], ⟨[⟨"TEXT", "a", some "A", "hi", 0⟩], true, false⟩⟩
          (fun _ => true) 1 { type := some "LOGIN", userId := some "C" } 0 "f").2
    ∧ Output.send 1 (Frame.historyResponse [] true) ∉
        (MessageHandler.handleLogin ⟨[], ⟨[⟨"TEXT", "a", some "A", "hi", 0⟩], true, false⟩⟩
          (fun _ => true) 1 { type := some "LOGIN", userId := some "C" } 0 "f").2 := by
  decide

/-! ## C8 — session-registry invariant -/

lemma createSession_nodup (l : List Session) (u : String) (ws : ConnId) (now : Nat)
    (h : (l.map Session.userId).Nodup) :
    ((SessionManager.createSession l u ws now).map Session.userId).Nodup := by
  unfold SessionManager.createSession
  by_cases hany : (l.any (fun t => t.userId == u)) = true
  · simp only [hany, if_true, List.map_map]
    have hmap : l.map (Session.userId ∘ fun t =>
        if t.userId == u then (⟨u, ws, now, now⟩ : Session) else t) = l.map Session.userId := by
      apply List.map_congr_left
      intro t ht
      by_cases hu : (t.userId == u) = true
      · simp only [Function.comp_apply, hu, if_true]
        exact (beq_iff_eq.mp hu).symm
      · simp only [Function.comp_apply, Bool.not_eq_true] at hu ⊢
        rw [hu]
        simp
    rw [hmap]
    exact h
  · simp only [Bool.not_eq_true] at hany
    rw [hany]
    simp only [Bool.false_eq_true, if_false, List.map_append, List.map_cons, List.map_nil]
    have hnotin : u ∉ l.map Session.userId := by
      intro hmem
      obtain ⟨t, ht, htu⟩ := List.mem_map.mp hmem
      have : l.any (fun t => t.userId == u) = true :=
        List.any_eq_true.mpr ⟨t, ht, beq_iff_eq.mpr htu⟩
      rw [hany] at this
      exact Bool.false_ne_true this
    exact List.Nodup.append h (List.nodup_singleton u)
      (fun a ha hb => by
        simp only [List.mem_singleton] at hb
        exact hnotin (hb ▸ ha))

lemma updateActivity_map_userId (l : List Session) (u : String) (now : Nat) :
    (SessionManager.updateActivity l u now).map Session.userId = l.map Session.userId := by
  unfold SessionManager.updateActivity
  rw [List.map_map]
  apply List.map_congr_left
  intro t ht
  simp only [Function.comp_apply]
  split <;> rfl

lemma removeSession_nodup (l : List Session) (u : String)
    (h : (l.map Session.userId).Nodup) :
    ((SessionManager.removeSession l u).map Session.userId).Nodup := by
  unfold SessionManager.removeSession
  exact h.sublist (List.Sublist.map Session.userId (List.filter_sublist l))

lemma handleLogin_sessions (st : ServerState) (isOpen : ConnId → Bool) (ws : ConnId)
    (d : ClientMsg) (now : Nat) (fid : String) :
    (MessageHandler.handleLogin st isOpen ws d now fid).1.sessions = st.sessions
    ∨ ∃ u, (MessageHandler.handleLogin st isOpen ws d now fid).1.sessions =
        SessionManager.createSession st.sessions u ws now := by
  unfold MessageHandler.handleLogin
  by_cases hb : (jsTrim (jsStr d.userId) == "") = true
  · left
    simp [hb]
  · right
    refine ⟨jsStr d.userId, ?_⟩
    simp only [Bool.not_eq_true] at hb
    simp [hb]

lemma handleTextMessage_sessions (st : ServerState) (isOpen : ConnId → Bool)
    (ws : ConnId) (d : ClientMsg) (now : Nat) (fid : String) :
    (MessageHandler.handleTextMessage st isOpen ws d now fid).1.sessions = st.sessions
    ∨ ∃ u, (MessageHandler.handleTextMessage st isOpen ws d now fid).1.sessions =
        SessionManager.updateActivity st.sessions u now := by
  unfold MessageHandler.handleTextMessage
  cases hf : SessionManager.findUserIdByWs st.sessions ws with
  | none => left; rfl
  | some uid =>
    by_cases hb : (jsTrim (jsStr d.content) == "") = true
    · left
      simp [hb]
    · right
      refine ⟨uid, ?_⟩
      simp only [Bool.not_eq_true] at hb
      simp [hb]

lemma handleMediaMessage_sessions (st : ServerState) (isOpen : ConnId → Bool)
    (ws : ConnId) (d : ClientMsg) (now : Nat) (fid : String) :
    (MessageHandler.handleMediaMessage st isOpen ws d now fid).1.sessions = st.sessions
    ∨ ∃ u, (MessageHandler.handleMediaMessage st isOpen ws d now fid).1.sessions =
        SessionManager.updateActivity st.sessions u now := by
  unfold MessageHandler.handleMediaMessage
  cases hf : SessionManager.findUserIdByWs st.sessions ws with
  | none => left; rfl
  | some uid =>
    by_cases hb : (jsTrim (jsStr d.content) == "") = true
    · left
      simp [hb]
    · right
      refine ⟨uid, ?_⟩
      simp only [Bool.not_eq_true] at hb
      simp [hb]

lemma handleMessage_sessions (st : ServerState) (isOpen : ConnId → Bool)
    (ws : ConnId) (raw : RawPayload) (now : Nat) (fid : String) :
    (WebSocketServer.handleMessage st isOpen ws raw now fid).1.sessions = st.sessions
    ∨ (∃ u, (WebSocketServer.handleMessage st isOpen ws raw now fid).1.sessions =
        SessionManager.createSession st.sessions u ws now)
    ∨ (∃ u, (WebSocketServer.handleMessage st isOpen ws raw now fid).1.sessions =
        SessionManager.updateActivity st.sessions u now) := by
  cases raw with
  | malformed => left; rfl
  | parsed p =>
    cases hval : MessageHandler.validateMessage p with
    | some err =>
      left
      simp [WebSocketServer.handleMessage, hval]
    | none =>
      cases p with
      | notObject =>
        left
        simp [WebSocketServer.handleMessage, hval]
      | obj m =>
        by_cases h1 : (jsStr m.type == "LOGIN") = true
        · have : WebSocketServer.handleMessage st isOpen ws
              (RawPayload.parsed (Parsed.obj m)) now fid =
              MessageHandler.handleLogin st isOpen ws m now fid := by
            simp [WebSocketServer.handleMessage, hval, h1]
          rw [this]
          rcases handleLogin_sessions st isOpen ws m now fid with h | ⟨u, h⟩
          · exact Or.inl h
          · exact Or.inr (Or.inl ⟨u, h⟩)
        by_cases h2 : (jsStr m.type == "TEXT") = true
        · have : WebSocketServer.handleMessage st isOpen ws
              (RawPayload.parsed (Parsed.obj m)) now fid =
              MessageHandler.handleTextMessage st isOpen ws m now fid := by
            simp [WebSocketServer.handleMessage, hval, h1, h2]
          rw [this]
          rcases handleTextMessage_sessions st isOpen ws m now fid with h | ⟨u, h⟩
          · exact Or.inl h
          · exact Or.inr (Or.inr ⟨u, h⟩)
        by_cases h3 : (jsStr m.type == "IMAGE" || jsStr m.type == "VIDEO"
            || jsStr m.type == "AUDIO") = true
        · have : WebSocketServer.handleMessage st isOpen ws
              (RawPayload.parsed (Parsed.obj m)) now fid =
              MessageHandler.handleMediaMessage st isOpen ws m now fid := by
            simp only [Bool.not_eq_true] at h1 h2
            simp [WebSocketServer.handleMessage, hval, h1, h2, h3]
          rw [this]
          rcases handleMediaMessage_sessions st isOpen ws m now fid with h | ⟨u, h⟩
          · exact Or.inl h
          · exact Or.inr (Or.inr ⟨u, h⟩)
        · left
          simp only [Bool.not_eq_true] at h1 h2 h3
          by_cases h4 : (jsStr m.type == "GET_HISTORY") = true
          · simp [WebSocketServer.handleMessage, hval, h1, h2, h3, h4]
          by_cases h5 : (jsStr m.type == "SYSTEM") = true
          · simp only [Bool.not_eq_true] at h4
            simp [WebSocketServer.handleMessage, hval, h1, h2, h3, h4, h5]
          · simp only [Bool.not_eq_true] at h4 h5
            simp [WebSocketServer.handleMessage, hval, h1, h2, h3, h4, h5]

lemma stepEvent_nodup (st : ServerState) (e : Event)
    (h : (st.sessions.map Session.userId).Nodup) :
    ((stepEvent st e).sessions.map Session.userId).Nodup := by
  cases e with
  | inbound ws raw isOpen now fid =>
    show ((WebSocketServer.handleMessage st isOpen ws raw now fid).1.sessions.map
      Session.userId).Nodup
    rcases handleMessage_sessions st isOpen ws raw now fid with heq | ⟨u, heq⟩ | ⟨u, heq⟩
    · rw [heq]; exact h
    · rw [heq]; exact createSession_nodup _ _ _ _ h
    · rw [heq, updateActivity_map_userId]; exact h
  | close ws isOpen now fid =>
    show ((WebSocketServer.handleClose st isOpen ws now fid).1.sessions.map
      Session.userId).Nodup
    cases hf : SessionManager.findUserIdByWs st.sessions ws with
    | none => simp [WebSocketServer.handleClose, hf, h]
    | some uid =>
      have : (WebSocketServer.handleClose st isOpen ws now fid).1.sessions =
          SessionManager.removeSession st.sessions uid := by
        simp [WebSocketServer.handleClose, hf]
      rw [this]
      exact removeSession_nodup _ _ h

lemma runEvents_nodup (evs : List Event) (st : ServerState)
    (h : (st.sessions.map Session.userId).Nodup) :
    ((runEvents st evs).sessions.map Session.userId).Nodup := by
  induction evs generalizing st with
  | nil => exact h
  | cons e t ih => exact ih _ (stepEvent_nodup st e h)

/-- C8 amended: in every reachable state the registered sessions have
pairwise-distinct userIds (userId → session is a bijection over the
registry, which is keyed by userId), and a later LOGIN for an already-bound
userId replaces exactly that userId's entry with the new connection while
leaving every other entry untouched — the handleLogin path contains no
connection-close call, so the earlier connection is not closed.  However, a
connection handle can belong to MORE than one registered session (see the
counterexample), so the "at most one session per connection handle" half of
the claim is false. -/
theorem session_registry_invariant
    (st : ServerState) (h : ReachableState st)
    (l : List Session) (u : String) (ws1 : ConnId) (now1 : Nat)
    (hbound : u ∈ l.map Session.userId) :
    (st.sessions.map Session.userId).Nodup
    ∧ (SessionManager.createSession l u ws1 now1).map (fun s => (s.userId, s.ws)) =
        l.map (fun s => if s.userId = u then (u, ws1) else (s.userId, s.ws)) := by
  constructor
  · obtain ⟨s0, evs, heq⟩ := h
    rw [heq]
    exact runEvents_nodup evs (initState s0) (by simp [initState])
  · have hany : (l.any (fun t => t.userId == u)) = true := by
      obtain ⟨t, ht, htu⟩ := List.mem_map.mp hbound
      exact List.any_eq_true.mpr ⟨t, ht, beq_iff_eq.mpr htu⟩
    unfold SessionManager.createSession
    simp only [hany, if_true, List.map_map]
    apply List.map_congr_left
    intro t ht
    by_cases hu : (t.userId == u) = true
    · have he := beq_iff_eq.mp hu
      simp [hu, he]
    · have he : t.userId ≠ u := by
        intro hc
        exact hu (beq_iff_eq.mpr hc)
      simp [he]

/-- Witness for the amended C8: the empty start state is reachable, and a
re-LOGIN of the bound userId A from connection 2 rebinds A to connection 2
in place. -/
theorem session_registry_invariant_witness :
    ((initState ⟨[], false, false⟩).sessions.map Session.userId).Nodup
    ∧ (SessionManager.createSession [⟨"A", 1, 0, 0⟩] "A" 2 5).map
        (fun s => (s.userId, s.ws)) =
      ([⟨"A", 1, 0, 0⟩] : List Session).map
        (fun s => if s.userId = "A" then ("A", 2) else (s.userId, s.ws)) := by
  exact session_registry_invariant (initState ⟨[], false, false⟩)
    ⟨⟨[], false, false⟩, [], rfl⟩ [⟨"A", 1, 0, 0⟩] "A" 2 5 (by decide)

/-- C8 counterexample: after LOGIN "A" and then LOGIN "B" on the same
connection 1 — a reachable event sequence — connection 1 belongs to TWO
registered sessions, refuting "each connection handle belongs to at most one
registered session". -/
theorem session_registry_invariant_cex :
    ((runEvents (initState ⟨[], false, false⟩)
        [Event.inbound 1 (RawPayload.parsed (Parsed.obj
            { type := some "LOGIN", userId := some "A" })) (fun _ => true) 0 "i1",
         Event.inbound 1 (RawPayload.parsed (Parsed.obj
            { type := some "LOGIN", userId := some "B" })) (fun _ => true) 1 "i2"]).sessions.filter
      (fun s => s.ws == 1)).length = 2 := by
  decide

/-! ## C9 — per-connection FIFO queue

The per-connection queue of WebSocketServer (`messageQueues`: a FIFO array
plus a `processing` flag; `enqueueMessage` pushes then calls
`processMessageQueue`, which returns immediately when a drain is already in
progress and otherwise sets the flag and shifts/awaits items until the queue
is empty, resetting the flag in a `finally`).  The event-loop behaviour is
modelled as a labelled transition system over one connection's queue state:

* `enqueueIdle` / `enqueueBusy` — a payload arrives (push, then the drain
  guard: starting a drain exactly when no drain is active);
* `processItem` — the active drain shifts the head and runs `handleMessage`
  on it to completion (processing of one dequeued item runs to completion
  once started, §5 of the spec; a caught error behaves the same for queue
  purposes); arrivals may interleave anywhere between steps, which covers
  every interleaving the single-threaded event loop allows during `await`;
* `finishDrain` — the loop observes an empty queue and resets `processing`.

`processed` is the trace of fully handled payloads, `arrivals` the trace of
enqueued payloads (ghost history variables), `drains` counts the drain loops
currently active. -/

structure QueueState where
  queue : List RawPayload
  processing : Bool
  processed : List RawPayload
  arrivals : List RawPayload
  drains : Nat
deriving Repr, DecidableEq

inductive QStep : QueueState → QueueState → Prop
  | enqueueIdle (s : QueueState) (r : RawPayload) (h : s.processing = false) :
      QStep s ⟨s.queue ++ [r], true, s.processed, s.arrivals ++ [r], s.drains + 1⟩
  | enqueueBusy (s : QueueState) (r : RawPayload) (h : s.processing = true) :
      QStep s ⟨s.queue ++ [r], true, s.processed, s.arrivals ++ [r], s.drains⟩
  | processItem (s : QueueState) (r : RawPayload) (rest : List RawPayload)
      (h : s.processing = true) (hq : s.queue = r :: rest) :
      QStep s ⟨rest, true, s.processed ++ [r], s.arrivals, s.drains⟩
  | finishDrain (s : QueueState) (h : s.processing = true) (hq : s.queue = []) :
      QStep s ⟨[], false, s.processed, s.arrivals, s.drains - 1⟩

/-- The queue state installed on connection open:
`{ queue: [], processing: false }`. -/
def qInit : QueueState := ⟨[], false, [], [], 0⟩

/-- Queue states reachable by any interleaving of arrivals and drain steps. -/
def QReachable (s : QueueState) : Prop := Relation.ReflTransGen QStep qInit s

/-- The inductive invariant of the drain loop. -/
def QInv (s : QueueState) : Prop :=
  s.arrivals = s.processed ++ s.queue
  ∧ s.drains = (if s.processing then 1 else 0)
  ∧ (s.processing = false → s.queue = [])

lemma qInv_init : QInv qInit := by
  simp [QInv, qInit]

lemma qInv_step (a b : QueueState) (hab : QStep a b) (h : QInv a) : QInv b := by
  obtain ⟨h1, h2, h3⟩ := h
  cases hab with
  | enqueueIdle r hp =>
    refine ⟨?_, ?_, ?_⟩
    · simp [h1, List.append_assoc]
    · simp [h2, hp]
    · intro hc
      simp at hc
  | enqueueBusy r hp =>
    refine ⟨?_, ?_, ?_⟩
    · simp [h1, List.append_assoc]
    · simp [h2, hp]
    · intro hc
      simp at hc
  | processItem r rest hp hq =>
    refine ⟨?_, ?_, ?_⟩
    · simp only []
      rw [h1, hq]
      simp
    · simp [h2, hp]
    · intro hc
      simp at hc
  | finishDrain hp hq =>
    refine ⟨?_, ?_, fun _ => rfl⟩
    · simp only []
      rw [h1, hq]
    · simp [h2, hp]

lemma qInv_reachable (s : QueueState) (h : QReachable s) : QInv s := by
  induction h with
  | refl => exact qInv_init
  | tail hsteps hstep ih => exact qInv_step _ _ hstep ih

/-- C9: in every reachable queue state at most one drain loop is active
(an enqueue arriving while a drain runs never starts a second one); the
payloads processed so far, in order, followed by the pending queue, are
exactly the arrivals in order — strict per-connection FIFO, each item fully
completing before the next begins; and whenever no drain is active every
arrival has already been processed, i.e. the in-progress drain picked up
every item enqueued during it before exiting. -/
theorem per_connection_fifo (s : QueueState) (h : QReachable s) :
    s.drains ≤ 1
    ∧ s.arrivals = s.processed ++ s.queue
    ∧ (s.processing = false → s.processed = s.arrivals) := by
  obtain ⟨h1, h2, h3⟩ := qInv_reachable s h
  refine ⟨?_, h1, ?_⟩
  · rw [h2]
    by_cases hp : s.processing <;> simp [hp]
  · intro hp
    rw [h1, h3 hp]
    simp

/-- The queue state after: enqueue r1 (drain starts), enqueue r2 during the
drain, process r1, process r2, drain exits. -/
def qFinal9 : QueueState :=
  ⟨[], false, [RawPayload.malformed, RawPayload.parsed Parsed.notObject],
   [RawPayload.malformed, RawPayload.parsed Parsed.notObject], 0⟩

/-- Witness for C9 along an explicit five-step execution. -/
theorem per_connection_fifo_witness :
    qFinal9.drains ≤ 1
    ∧ qFinal9.arrivals = qFinal9.processed ++ qFinal9.queue
    ∧ (qFinal9.processing = false → qFinal9.processed = qFinal9.arrivals) := by
  refine per_connection_fifo qFinal9 ?_
  have s1 : QStep qInit
      ⟨[RawPayload.malformed], true, [], [RawPayload.malformed], 1⟩ :=
    QStep.enqueueIdle qInit RawPayload.malformed rfl
  have s2 : QStep ⟨[RawPayload.malformed], true, [], [RawPayload.malformed], 1⟩
      ⟨[RawPayload.malformed, RawPayload.parsed Parsed.notObject], true, [],
       [RawPayload.malformed, RawPayload.parsed Parsed.notObject], 1⟩ :=
    QStep.enqueueBusy _ (RawPayload.parsed Parsed.notObject) rfl
  have s3 : QStep
      ⟨[RawPayload.malformed, RawPayload.parsed Parsed.notObject], true, [],
       [RawPayload.malformed, RawPayload.parsed Parsed.notObject], 1⟩
      ⟨[RawPayload.parsed Parsed.notObject], true, [RawPayload.malformed],
       [RawPayload.malformed, RawPayload.parsed Parsed.notObject], 1⟩ :=
    QStep.processItem _ RawPayload.malformed [RawPayload.parsed Parsed.notObject] rfl rfl
  have s4 : QStep
      ⟨[RawPayload.parsed Parsed.notObject], true, [RawPayload.malformed],
       [RawPayload.malformed, RawPayload.parsed Parsed.notObject], 1⟩
      ⟨[], true, [RawPayload.malformed, RawPayload.parsed Parsed.notObject],
       [RawPayload.malformed, RawPayload.parsed Parsed.notObject], 1⟩ :=
    QStep.processItem _ (RawPayload.parsed Parsed.notObject) [] rfl rfl
  have s5 : QStep
      ⟨[], true, [RawPayload.malformed, RawPayload.parsed Parsed.notObject],
       [RawPayload.malformed, RawPayload.parsed Parsed.notObject], 1⟩ qFinal9 :=
    QStep.finishDrain _ rfl rfl
  exact Relation.ReflTransGen.tail
    (Relation.ReflTransGen.tail
      (Relation.ReflTransGen.tail
        (Relation.ReflTransGen.tail
          (Relation.ReflTransGen.tail Relation.ReflTransGen.refl s1) s2) s3) s4) s5

end HybridChat
